import Mathlib

/-!
Verification of the gotirc client core (src/client.go) against its
natural-language specification. The Go code is shallowly embedded:
pure computations become Lean functions, the mutable client state
becomes an explicit state record, Go `panic` (out-of-range slice
index) becomes `Except GoPanic`, and the float64 token-bucket
arithmetic is modelled over `ℚ`.
-/

/-- A Go runtime panic from an out-of-range index access: `idx` is the
offending index (as in Go's "index out of range [idx]"). -/
structure GoPanic where
  idx : Nat
deriving DecidableEq, Repr

/-- The structured message produced by the external message parser
(`NewMessage`): command token, ordered parameters, tag map (modelled
as an association list; only lookup is used), and the sender nickname
(`msg.Prefix.Nick` in the Go code). -/
structure Message where
  command : String
  params : List String
  tags : List (String × String)
  nick : String
deriving DecidableEq, Repr

/-- Go map lookup `msg.Tags[k]`: first value bound to `k`, if any. -/
def lookupTag (tags : List (String × String)) (k : String) : Option String :=
  match tags with
  | [] => none
  | (k', v) :: rest => if k' = k then some v else lookupTag rest k

/-- Go `strings.HasPrefix s p` (byte-for-byte prefix; chars coincide with
bytes on every prefix string used by the client, all ASCII). -/
def strStarts (s p : String) : Bool :=
  p.data.isPrefixOf s.data

/-- Go byte slice `s[n:]`, used by the client only as `m[7:]` where the
first 7 bytes of `m` are the one-byte chars of the CTCP ACTION marker,
so dropping 7 chars equals dropping 7 bytes there. -/
def strDrop (s : String) (n : Nat) : String :=
  String.mk (s.data.drop n)

/-- Indexing `ps[i]` on a Go slice: panics when `i` is out of range. -/
def getParam (ps : List String) (i : Nat) : Except GoPanic String :=
  match ps.get? i with
  | some s => Except.ok s
  | none => Except.error ⟨i⟩

/- ### The external message parser, modelled from the spec -/

/-- Strip the trailing line delimiter (`\r\n`, or a bare `\n`). -/
def trimCRLF (cs : List Char) : List Char :=
  ((cs.reverse.dropWhile fun c => c == '\n' || c == '\r')).reverse

/-- Split at the first space: (chars before it, chars after it);
when there is no space the whole input is the first component. -/
def breakOnSpace : List Char → List Char × List Char
  | [] => ([], [])
  | c :: cs =>
    if c = ' ' then ([], cs)
    else
      let r := breakOnSpace cs
      (c :: r.1, r.2)

/-- Split at the first `=`: (key chars, value chars; empty if no `=`). -/
def breakAtEq : List Char → List Char × List Char
  | [] => ([], [])
  | c :: cs =>
    if c = '=' then ([], cs)
    else
      let r := breakAtEq cs
      (c :: r.1, r.2)

/-- The chars before the first `!` (the whole input if there is none). -/
def takeToBang : List Char → List Char
  | [] => []
  | c :: cs => if c = '!' then [] else c :: takeToBang cs

/-- Split a char list on every occurrence of `sep` (like Go
`strings.Split`: the empty input yields one empty chunk). -/
def splitListOn (sep : Char) (cs : List Char) : List (List Char) :=
  cs.foldr
    (fun c acc =>
      if c = sep then [] :: acc
      else
        match acc with
        | [] => [[c]]
        | w :: ws => (c :: w) :: ws)
    [[]]

/-- Modelled from the spec: the tag section of a raw line, a
`;`-separated list of `key=value` pairs (§6: "mapping of tag-key to
tag-value (possibly empty)"). -/
def parseTags (cs : List Char) : List (String × String) :=
  (splitListOn ';' cs).map fun t =>
    let r := breakAtEq t
    (String.mk r.1, String.mk r.2)

/-- Parameter scanner: `cur = none` at a token boundary, `cur = some w`
while inside a token (`w` holds the token's chars reversed). A token
starting with `:` is the trailing parameter and absorbs the rest of
the line. -/
def paramsAux (cur : Option (List Char)) : List Char → List String
  | [] =>
    match cur with
    | none => []
    | some w => [String.mk w.reverse]
  | c :: cs =>
    match cur with
    | none =>
      if c = ':' then [String.mk cs]
      else if c = ' ' then paramsAux none cs
      else paramsAux (some [c]) cs
    | some w =>
      if c = ' ' then String.mk w.reverse :: paramsAux none cs
      else paramsAux (some (c :: w)) cs

/-- Modelled from the spec: the external Message Parser (`NewMessage`,
whose source file is not under src/). Per §6 the contract is
`parse(rawLine) → {command, params[], tags{}, senderNick}`, tolerating
a line with no tags (empty map) and no prefix (empty nickname); the
grammar is the standard IRC line shape implied by §4.4/§6/§8:
optional `@tags` section, optional `:prefix` whose nickname is the
part before `!`, a command token, space-separated middle parameters,
and a trailing parameter introduced by `:` running to end of line,
with the CRLF delimiter stripped. -/
def NewMessage (line : String) : Message :=
  let cs := trimCRLF line.data
  let tagsAndRest :=
    match cs with
    | '@' :: rest =>
      let r := breakOnSpace rest
      (parseTags r.1, r.2)
    | _ => ([], cs)
  let nickAndRest :=
    match tagsAndRest.2 with
    | ':' :: rest =>
      let r := breakOnSpace rest
      (String.mk (takeToBang r.1), r.2)
    | _ => ("", tagsAndRest.2)
  let r := breakOnSpace nickAndRest.2
  { command := String.mk r.1
    params := paramsAux none r.2
    tags := tagsAndRest.1
    nick := nickAndRest.1 }

/- ### Callback registry and dispatch (doCallbacks and helpers) -/

/-- The callback registry: the number of listeners registered for each
of the 12 event kinds (the `On<Event>` methods only append, so the
count and the common argument tuple determine every invocation). -/
structure Registry where
  nAction : Nat := 0
  nChat : Nat := 0
  nResub : Nat := 0
  nNotice : Nat := 0
  nUserState : Nat := 0
  nRoomState : Nat := 0
  nSubGift : Nat := 0
  nSub : Nat := 0
  nCheer : Nat := 0
  nJoin : Nat := 0
  nPart : Nat := 0
  nWhisper : Nat := 0
deriving DecidableEq, Repr

/-- One listener invocation: the event kind together with the exact
arguments the Go code passes to that listener. -/
inductive Event where
  | action (channel : String) (tags : List (String × String)) (msg : String)
  | chat (channel : String) (tags : List (String × String)) (msg : String)
  | resub (channel : String) (tags : List (String × String)) (msg : String)
  | notice (msg : String)
  | userState (channel : String) (tags : List (String × String))
  | roomState (channel : String) (tags : List (String × String))
  | subGift (channel : String) (tags : List (String × String)) (msg : String)
  | subscription (channel : String) (tags : List (String × String)) (msg : String)
  | cheer (channel : String) (tags : List (String × String)) (msg : String)
  | join (channel username : String)
  | part (channel username : String)
  | whisper (username : String) (tags : List (String × String)) (msg : String)
deriving DecidableEq, Repr

/-- Capacity of the outbound queue (`sendBufferSize` in the source). -/
def sendBufferSize : Nat := 512

/-- `c.send`: returns early when not connected; otherwise a non-blocking
enqueue that drops (and merely logs) the message when the queue is full. -/
def send (connected : Bool) (queue : List String) (msg : String) : List String :=
  if !connected then queue
  else if queue.length < sendBufferSize then queue ++ [msg]
  else queue

/-- `doActionCallbacks`: reads `Params[1]` before the loop (so it is
reached even with zero listeners); inside the loop each callback gets
`(Params[0], Tags, m[7:])`. -/
def doActionCallbacks (n : Nat) (msg : Message) : Except GoPanic (List Event) := do
  let m ← getParam msg.params 1
  match n with
  | 0 => pure []
  | Nat.succ _ => do
    let ch ← getParam msg.params 0
    pure (List.replicate n (Event.action ch msg.tags (strDrop m 7)))

/-- `doChatCallbacks`: each callback gets `(Params[0], Tags, Params[1])`,
the arguments evaluated left to right, only when a listener exists. -/
def doChatCallbacks (n : Nat) (msg : Message) : Except GoPanic (List Event) :=
  match n with
  | 0 => pure []
  | Nat.succ _ => do
    let ch ← getParam msg.params 0
    let m ← getParam msg.params 1
    pure (List.replicate n (Event.chat ch msg.tags m))

/-- `doCheerCallbacks`: same argument shape as the chat path. -/
def doCheerCallbacks (n : Nat) (msg : Message) : Except GoPanic (List Event) :=
  match n with
  | 0 => pure []
  | Nat.succ _ => do
    let ch ← getParam msg.params 0
    let m ← getParam msg.params 1
    pure (List.replicate n (Event.cheer ch msg.tags m))

/-- The body guard shared by the notice, resub, subscription and
subgift paths: `Params[1]` when present, the empty string otherwise. -/
def bodyOrEmpty (msg : Message) : String :=
  match msg.params.get? 1 with
  | some s => s
  | none => ""

/-- `doNoticeCallbacks`: each callback gets the guarded body only. -/
def doNoticeCallbacks (n : Nat) (msg : Message) : Except GoPanic (List Event) :=
  pure (List.replicate n (Event.notice (bodyOrEmpty msg)))

/-- `doResubCallbacks`: `(Params[0], Tags, guarded body)` per listener. -/
def doResubCallbacks (n : Nat) (msg : Message) : Except GoPanic (List Event) :=
  match n with
  | 0 => pure []
  | Nat.succ _ => do
    let ch ← getParam msg.params 0
    pure (List.replicate n (Event.resub ch msg.tags (bodyOrEmpty msg)))

/-- `doSubscriptionCallbacks`: as the resub path. -/
def doSubscriptionCallbacks (n : Nat) (msg : Message) : Except GoPanic (List Event) :=
  match n with
  | 0 => pure []
  | Nat.succ _ => do
    let ch ← getParam msg.params 0
    pure (List.replicate n (Event.subscription ch msg.tags (bodyOrEmpty msg)))

/-- `doSubGiftCallbacks`: as the resub path. -/
def doSubGiftCallbacks (n : Nat) (msg : Message) : Except GoPanic (List Event) :=
  match n with
  | 0 => pure []
  | Nat.succ _ => do
    let ch ← getParam msg.params 0
    pure (List.replicate n (Event.subGift ch msg.tags (bodyOrEmpty msg)))

/-- `doUserStateCallbacks`: `(Params[0], Tags)` per listener. -/
def doUserStateCallbacks (n : Nat) (msg : Message) : Except GoPanic (List Event) :=
  match n with
  | 0 => pure []
  | Nat.succ _ => do
    let ch ← getParam msg.params 0
    pure (List.replicate n (Event.userState ch msg.tags))

/-- `doRoomStateCallbacks`: `(Params[0], Tags)` per listener. -/
def doRoomStateCallbacks (n : Nat) (msg : Message) : Except GoPanic (List Event) :=
  match n with
  | 0 => pure []
  | Nat.succ _ => do
    let ch ← getParam msg.params 0
    pure (List.replicate n (Event.roomState ch msg.tags))

/-- `doJoinCallbacks`: `(Params[0], Prefix.Nick)` per listener. -/
def doJoinCallbacks (n : Nat) (msg : Message) : Except GoPanic (List Event) :=
  match n with
  | 0 => pure []
  | Nat.succ _ => do
    let ch ← getParam msg.params 0
    pure (List.replicate n (Event.join ch msg.nick))

/-- `doPartCallbacks`: `(Params[0], Prefix.Nick)` per listener. -/
def doPartCallbacks (n : Nat) (msg : Message) : Except GoPanic (List Event) :=
  match n with
  | 0 => pure []
  | Nat.succ _ => do
    let ch ← getParam msg.params 0
    pure (List.replicate n (Event.part ch msg.nick))

/-- `doWhisperCallbacks`: `(Prefix.Nick, Tags, Params[1])` per listener;
`Params[1]` is the only indexed access. -/
def doWhisperCallbacks (n : Nat) (msg : Message) : Except GoPanic (List Event) :=
  match n with
  | 0 => pure []
  | Nat.succ _ => do
    let m ← getParam msg.params 1
    pure (List.replicate n (Event.whisper msg.nick msg.tags m))

/-- The command switch of `doCallbacks`, over an already parsed message.
Returns the listener invocations in order together with the outbound
queue (only the PING arm enqueues, through `send`). -/
def dispatchMessage (reg : Registry) (connected : Bool) (queue : List String)
    (msg : Message) : Except GoPanic (List Event × List String) :=
  match msg.command with
  | "PRIVMSG" =>
    let m :=
      match msg.params.get? 1 with
      | some s => s
      | none => ""
    if strStarts m "\u0001ACTION" then do
      let evs ← doActionCallbacks reg.nAction msg
      pure (evs, queue)
    else if (lookupTag msg.tags "bits").isSome then do
      let evs ← doCheerCallbacks reg.nCheer msg
      pure (evs, queue)
    else do
      let evs ← doChatCallbacks reg.nChat msg
      pure (evs, queue)
  | "JOIN" => do
    let evs ← doJoinCallbacks reg.nJoin msg
    pure (evs, queue)
  | "PART" => do
    let evs ← doPartCallbacks reg.nPart msg
    pure (evs, queue)
  | "NOTICE" => do
    let evs ← doNoticeCallbacks reg.nNotice msg
    pure (evs, queue)
  | "USERSTATE" => do
    let evs ← doUserStateCallbacks reg.nUserState msg
    pure (evs, queue)
  | "ROOMSTATE" => do
    let evs ← doRoomStateCallbacks reg.nRoomState msg
    pure (evs, queue)
  | "USERNOTICE" =>
    let msgid :=
      match lookupTag msg.tags "msg-id" with
      | some v => v
      | none => ""
    if msgid = "resub" then do
      let evs ← doResubCallbacks reg.nResub msg
      pure (evs, queue)
    else if msgid = "sub" then do
      let evs ← doSubscriptionCallbacks reg.nSub msg
      pure (evs, queue)
    else if msgid = "subgift" then do
      let evs ← doSubGiftCallbacks reg.nSubGift msg
      pure (evs, queue)
    else
      pure ([], queue)
  | "WHISPER" => do
    let evs ← doWhisperCallbacks reg.nWhisper msg
    pure (evs, queue)
  | "PING" => do
    let p ← getParam msg.params 0
    pure ([], send connected queue ("PONG :" ++ p))
  | _ => pure ([], queue)

/-- `doCallbacks`: parse the raw line, then dispatch on its command. -/
def doCallbacks (reg : Registry) (connected : Bool) (queue : List String)
    (line : String) : Except GoPanic (List Event × List String) :=
  dispatchMessage reg connected queue (NewMessage line)

/- ### Connection lifecycle: connected flag, shutdown channel, handshake -/

/-- The lock-guarded connection state of a `Client`: the `connected`
flag, plus a count of how many times `close(doneChan)` has executed
(Go's `close` on an already closed channel is fatal, so the model
counts closes to state the exactly-once property). -/
structure ClientState where
  connected : Bool
  closeCount : Nat
deriving DecidableEq, Repr

/-- The state of a freshly built client (`NewClient`): the flag is the
Bool zero value, and the shutdown channel has never been closed. -/
def NewClient : ClientState :=
  { connected := false, closeCount := 0 }

/-- `Disconnect`: under the state lock, a caller that observes the flag
set clears it and closes the shutdown channel; otherwise nothing. -/
def Disconnect (s : ClientState) : ClientState :=
  if s.connected then { connected := false, closeCount := s.closeCount + 1 }
  else s

/-- `Connected`: the lock-guarded read of the flag. -/
def Connected (s : ClientState) : Bool :=
  s.connected

/-- `doConnect`: under the state lock, fail with the AlreadyConnected
error when the flag is set (without invoking the dial factory), else
run the factory and set the flag exactly when it succeeds. Returns
(result, new state, whether the factory was invoked). -/
def doConnect (s : ClientState) (dialResult : Except String Unit) :
    Except String Unit × ClientState × Bool :=
  if s.connected then (Except.error "Already connected", s, false)
  else
    match dialResult with
    | Except.ok _ => (Except.ok (), { s with connected := true }, true)
    | Except.error e => (Except.error e, s, true)

/-- The fixed capability list (`var caps` in the source). -/
def capsList : List String := ["membership", "commands", "tags"]

/-- Go `strings.Join`: elements interleaved with the separator. -/
def joinStrings (sep : String) : List String → String
  | [] => ""
  | [s] => s
  | s :: rest => s ++ sep ++ joinStrings sep rest

/-- The capability-request line the client writes after the welcome
reply: `fmt.Sprintf("CAP REQ :%s\r\n", strings.Join(caps, " twitch.tv/"))`. -/
def capReqLine : String :=
  "CAP REQ :" ++ joinStrings " twitch.tv/" capsList ++ "\r\n"

/-- The space-separated capability tokens of the CAP REQ payload: the
written line minus the 9-byte `CAP REQ :` lead and the CRLF, split on
spaces. -/
def capReqTokens : List String :=
  (splitListOn ' ' (trimCRLF (capReqLine.data.drop 9))).map String.mk

/-- The I/O outcome of the handshake after `PASS`/`NICK` are sent: the
initial write fails, the single read fails, or a line is read. -/
inductive HsOutcome where
  | writeErr (e : String)
  | readErr (e : String)
  | line (l : String)
deriving DecidableEq, Repr

/-- The observable result of `authenticate`: the lines written to the
transport, the raw lines routed through `doCallbacks`, and the
returned error, if any. -/
structure AuthResult where
  written : List String
  dispatched : List String
  result : Except String Unit
deriving Repr

/-- `authenticate`: write `PASS <pass>\r\nNICK <nick>\r\n`, read one
line; when its parsed command is not "001", route the raw line through
the dispatcher and fail with an error carrying the raw line; otherwise
write the capability request (its write assumed to succeed, the claims
under study not depending on that failure mode). -/
def authenticate (nick pass : String) (io : HsOutcome) : AuthResult :=
  match io with
  | HsOutcome.writeErr e =>
    { written := [], dispatched := [], result := Except.error e }
  | HsOutcome.readErr e =>
    { written := ["PASS " ++ pass ++ "\r\nNICK " ++ nick ++ "\r\n"],
      dispatched := [], result := Except.error e }
  | HsOutcome.line l =>
    let w0 := ["PASS " ++ pass ++ "\r\nNICK " ++ nick ++ "\r\n"]
    if (NewMessage l).command ≠ "001" then
      { written := w0, dispatched := [l],
        result := Except.error ("Unexpected server response: " ++ l) }
    else
      { written := w0 ++ [capReqLine], dispatched := [], result := Except.ok () }

/-- `Connect` up to the end of the handshake: `doConnect` (dial under
the lock), then `doPostConnect`'s call to `authenticate`. A handshake
error is returned as is, with no further change to the connection
state. Returns (result, state after this phase, whether dialed). -/
def connectHandshake (s : ClientState) (dialResult : Except String Unit)
    (nick pass : String) (io : HsOutcome) :
    Except String Unit × ClientState × Bool :=
  match doConnect s dialResult with
  | (Except.error e, s', dialed) => (Except.error e, s', dialed)
  | (Except.ok _, s', dialed) =>
    match (authenticate nick pass io).result with
    | Except.error e => (Except.error e, s', dialed)
    | Except.ok _ => (Except.ok (), s', dialed)

/- ### Outbound helpers: send state, Say, Whisper -/

/-- The state `Say`/`Whisper` read and write: the connected flag (read
through `Connected` inside `send`) and the outbound queue. -/
structure SendState where
  connected : Bool
  queue : List String
deriving DecidableEq, Repr

/-- `Say`: indexes `channel[0]` before anything else — a panic on the
empty string (Go's byte 0 equals '#' exactly when the first char is
'#', every char below 0x80 being one byte); then prepends '#' when
missing and enqueues `PRIVMSG <channel> :<msg>` through `send`, which
itself performs the `Connected` check. -/
def Say (st : SendState) (channel msg : String) : Except GoPanic SendState :=
  match channel.data with
  | [] => Except.error ⟨0⟩
  | c :: _ =>
    let ch := if c ≠ '#' then "#" ++ channel else channel
    Except.ok { st with queue := send st.connected st.queue ("PRIVMSG " ++ ch ++ " :" ++ msg) }

/-- `Whisper`: `c.Say("#jtv", "/w "+user+" "+msg)`. -/
def Whisper (st : SendState) (user msg : String) : Except GoPanic SendState :=
  Say st "#jtv" ("/w " ++ user ++ " " ++ msg)

/- ### The rate-limited sender's token bucket -/

/-- One iteration of `startSendLoop`'s bucket arithmetic for a dequeued
line (float64 modelled over ℚ): refill by `elapsed * (C / P)`, clamp
to C, sleep `1 - tokens` seconds when `tokens < 1`, then decrement
after the write. Returns (tokens at the check, sleep seconds, tokens
after the send). -/
def sendTick (maxMessages perSeconds tokens elapsed : ℚ) : ℚ × ℚ × ℚ :=
  let t := tokens + elapsed * (maxMessages / perSeconds)
  if t ≥ maxMessages then (maxMessages, 0, maxMessages - 1)
  else if t < 1 then (t, 1 - t, t - 1)
  else (t, 0, t - 1)

/-- Process a queue of lines, one `sendTick` per line, the k-th line
arriving `elapsed_k` seconds of wall clock after the previous one.
Returns the per-line (tokens at the check, sleep seconds) trace. -/
def runSends (maxMessages perSeconds tokens : ℚ) : List ℚ → List (ℚ × ℚ)
  | [] => []
  | e :: es =>
    let r := sendTick maxMessages perSeconds tokens e
    (r.1, r.2.1) :: runSends maxMessages perSeconds r.2.2 es

/- ### Helper lemmas -/

/-- The PING arm of the dispatcher over an already destructured message
with a nonempty parameter list: exactly one PONG line echoing the
first parameter is enqueued, and no listener is invoked. -/
theorem dispatch_ping_reply (reg : Registry) (q : List String) (p : String)
    (rest : List String) (tg : List (String × String)) (nk : String)
    (hq : q.length < sendBufferSize) :
    dispatchMessage reg true q ⟨"PING", p :: rest, tg, nk⟩ =
      Except.ok ([], q ++ ["PONG :" ++ p]) := by
  have h1 : dispatchMessage reg true q ⟨"PING", p :: rest, tg, nk⟩ =
      Except.ok ([], send true q ("PONG :" ++ p)) := rfl
  rw [h1]
  simp [send, hq]

/- ### The claims -/

/-- C1: for the default token bucket (capacity 19, window 30 s) and a
fresh sender holding 19 tokens, 19 consecutive queued lines with zero
elapsed wall clock between them each get a computed sleep of zero,
and the 20th line gets a sleep of at least `1 - tokens` seconds, the
token deficit at its check (tokens being 0 there, the computed sleep
is exactly 1 second). -/
theorem c1_token_bucket_default :
    ((runSends 19 30 19 (List.replicate 20 0)).map Prod.snd).take 19 =
        List.replicate 19 0
      ∧ ∃ t s, (runSends 19 30 19 (List.replicate 20 0)).get? 19 = some (t, s)
          ∧ 1 - t ≤ s := by
  have h : runSends 19 30 19 (List.replicate 20 0) =
      [(19, 0), (18, 0), (17, 0), (16, 0), (15, 0), (14, 0), (13, 0), (12, 0),
       (11, 0), (10, 0), (9, 0), (8, 0), (7, 0), (6, 0), (5, 0), (4, 0),
       (3, 0), (2, 0), (1, 0), (0, 1)] := by
    norm_num [runSends, sendTick, List.replicate]
  rw [h]
  exact ⟨rfl, 0, 1, rfl, by norm_num⟩

/-- C2 counterexample: dispatching
`PRIVMSG #foo :\u0001ACTION waves\u0001` with one action listener
hands the listener the text `" waves\u0001"` — the body with only the
7-byte marker stripped — which is not the text `"waves"` the claim
states. -/
theorem c2_action_text_counterexample :
    doCallbacks { nAction := 1 } true [] "PRIVMSG #foo :\u0001ACTION waves\u0001"
        = Except.ok ([Event.action "#foo" [] " waves\u0001"], [])
      ∧ Event.action "#foo" [] " waves\u0001" ≠ Event.action "#foo" [] "waves" :=
  ⟨rfl, by decide⟩

/-- C2 amended: dispatching the input line
`PRIVMSG #foo :\u0001ACTION waves\u0001` invokes only the registered
action listeners (no chat or cheer listeners fire, and the queue is
untouched), and each action listener receives channel `#foo` and
message text exactly `" waves\u0001"`: the body with the 7-byte CTCP
marker prefix stripped, keeping the leading space and the trailing
0x01 byte. -/
theorem c2_action_dispatch (reg : Registry) (conn : Bool) (q : List String) :
    doCallbacks reg conn q "PRIVMSG #foo :\u0001ACTION waves\u0001"
      = Except.ok
          (List.replicate reg.nAction (Event.action "#foo" [] " waves\u0001"), q) := by
  obtain ⟨a, b, c, d, e, f, g, h, i, j, k, l⟩ := reg
  cases a <;> rfl

/-- C3: a received line whose parsed command is PING with first
parameter `p` makes the dispatcher enqueue exactly one outbound line
`PONG :p` (and fire no listeners), provided the client is connected
and the outbound queue is not full. -/
theorem c3_ping_auto_reply (line p : String) (rest : List String)
    (reg : Registry) (q : List String)
    (hc : (NewMessage line).command = "PING")
    (hp : (NewMessage line).params = p :: rest)
    (hq : q.length < sendBufferSize) :
    doCallbacks reg true q line = Except.ok ([], q ++ ["PONG :" ++ p]) := by
  have hM : NewMessage line =
      ⟨(NewMessage line).command, (NewMessage line).params,
       (NewMessage line).tags, (NewMessage line).nick⟩ := rfl
  rw [hc, hp] at hM
  unfold doCallbacks
  rw [hM]
  exact dispatch_ping_reply reg q p rest _ _ hq

/-- C3 witness: the line `PING :serverhost` parses to command PING
with payload `serverhost` and, connected with an empty queue, yields
exactly the enqueued line `PONG :serverhost`. -/
theorem c3_ping_auto_reply_witness :
    (NewMessage "PING :serverhost").command = "PING"
      ∧ (NewMessage "PING :serverhost").params = ["serverhost"]
      ∧ ([] : List String).length < sendBufferSize
      ∧ doCallbacks {} true [] "PING :serverhost"
          = Except.ok ([], ["PONG :serverhost"]) :=
  ⟨by decide, by decide, by decide,
    c3_ping_auto_reply "PING :serverhost" "serverhost" [] {} []
      (by decide) (by decide) (by decide)⟩

/-- C4: what the client actually writes as its capability request.
`strings.Join(caps, " twitch.tv/")` interleaves the namespace with the
separator only, so the first capability token `membership` carries no
`twitch.tv/` prefix while the other two do — the written line
contradicts the intended all-prefixed capability list. -/
theorem c4_cap_req_first_token_unprefixed :
    capReqLine = "CAP REQ :membership twitch.tv/commands twitch.tv/tags\r\n"
      ∧ capReqTokens = ["membership", "twitch.tv/commands", "twitch.tv/tags"]
      ∧ strStarts "membership" "twitch.tv/" = false
      ∧ strStarts "twitch.tv/commands" "twitch.tv/" = true
      ∧ strStarts "twitch.tv/tags" "twitch.tv/" = true :=
  ⟨rfl, by decide, by decide, by decide, by decide⟩

/-- C5: Disconnect is idempotent: a call that observes the connected
flag set clears it and closes the shutdown channel exactly once
(close count +1); a call on a disconnected state changes nothing and
never closes again; Disconnect composed with Disconnect equals a
single Disconnect, with no second close. -/
theorem c5_disconnect_idempotent (s : ClientState) :
    Disconnect (Disconnect s) = Disconnect s
      ∧ (s.connected = true →
          Disconnect s = ⟨false, s.closeCount + 1⟩)
      ∧ (s.connected = false → Disconnect s = s)
      ∧ (Disconnect (Disconnect s)).closeCount = (Disconnect s).closeCount := by
  obtain ⟨c, n⟩ := s
  cases c <;> simp [Disconnect]

/-- C5 witness: on the concrete connected state with zero closes, the
first Disconnect clears the flag and closes once, and a second
Disconnect changes nothing. -/
theorem c5_disconnect_idempotent_witness :
    (⟨true, 0⟩ : ClientState).connected = true
      ∧ Disconnect ⟨true, 0⟩ = ⟨false, 1⟩
      ∧ Disconnect (Disconnect ⟨true, 0⟩) = Disconnect ⟨true, 0⟩ :=
  ⟨by decide, (c5_disconnect_idempotent ⟨true, 0⟩).2.1 (by decide),
    (c5_disconnect_idempotent ⟨true, 0⟩).1⟩

/-- C6: Connected is false on a fresh client; after a successful dial
and a first line parsing to the welcome code 001 the handshake
succeeds and Connected is true; Connected is false after Disconnect;
and a Connect while the flag is set returns the AlreadyConnected
error at once, without invoking the dial factory and without touching
the state. -/
theorem c6_connected_lifecycle :
    Connected NewClient = false
      ∧ (∀ (s : ClientState) (nick pass l : String),
          s.connected = false → (NewMessage l).command = "001" →
          (connectHandshake s (Except.ok ()) nick pass (HsOutcome.line l)).1
              = Except.ok ()
            ∧ Connected
                (connectHandshake s (Except.ok ()) nick pass (HsOutcome.line l)).2.1
              = true)
      ∧ (∀ s : ClientState, Connected (Disconnect s) = false)
      ∧ (∀ (s : ClientState) (dial : Except String Unit) (nick pass : String)
            (io : HsOutcome), s.connected = true →
          connectHandshake s dial nick pass io
            = (Except.error "Already connected", s, false)) := by
  refine ⟨rfl, ?_, ?_, ?_⟩
  · intro s nick pass l hs h001
    constructor <;>
      simp [connectHandshake, doConnect, hs, authenticate, h001, Connected]
  · intro s
    obtain ⟨c, n⟩ := s
    cases c <;> simp [Disconnect, Connected]
  · intro s dial nick pass io hs
    simp [connectHandshake, doConnect, hs]

/-- C6 witness: on a fresh client the welcome line `:tmi 001 me`
completes the handshake with Connected true, and a Connect attempted
on an already connected state fails with AlreadyConnected, undialed
and unchanged. -/
theorem c6_connected_lifecycle_witness :
    NewClient.connected = false
      ∧ (NewMessage ":tmi 001 me :Welcome\r\n").command = "001"
      ∧ (connectHandshake NewClient (Except.ok ()) "me" "tok"
            (HsOutcome.line ":tmi 001 me :Welcome\r\n")).1 = Except.ok ()
      ∧ (⟨true, 0⟩ : ClientState).connected = true
      ∧ connectHandshake ⟨true, 0⟩ (Except.ok ()) "me" "tok"
            (HsOutcome.line ":tmi 001 me :Welcome\r\n")
          = (Except.error "Already connected", ⟨true, 0⟩, false) :=
  ⟨by decide, by decide,
    (c6_connected_lifecycle.2.1 NewClient "me" "tok" ":tmi 001 me :Welcome\r\n"
      (by decide) (by decide)).1,
    by decide,
    c6_connected_lifecycle.2.2.2 ⟨true, 0⟩ (Except.ok ()) "me" "tok"
      (HsOutcome.line ":tmi 001 me :Welcome\r\n") (by decide)⟩

/-- C7: when the first line read after PASS/NICK parses to a command
other than 001, that raw line is still routed through the dispatcher
(it is exactly the one dispatched line) and the Connect call fails
with an error carrying the raw line. -/
theorem c7_non_welcome_first_line (nick pass l : String)
    (h : (NewMessage l).command ≠ "001") :
    (authenticate nick pass (HsOutcome.line l)).dispatched = [l]
      ∧ (authenticate nick pass (HsOutcome.line l)).result
          = Except.error ("Unexpected server response: " ++ l)
      ∧ (∀ s : ClientState, s.connected = false →
          (connectHandshake s (Except.ok ()) nick pass (HsOutcome.line l)).1
            = Except.error ("Unexpected server response: " ++ l)) := by
  refine ⟨?_, ?_, ?_⟩
  · simp [authenticate, h]
  · simp [authenticate, h]
  · intro s hs
    simp [connectHandshake, doConnect, hs, authenticate, h]

/-- C7 witness: the concrete non-welcome first line
`NOTICE * :Login failed` is dispatched and reported in the error. -/
theorem c7_non_welcome_first_line_witness :
    ((NewMessage "NOTICE * :Login failed\r\n").command = "001" → False)
      ∧ (authenticate "me" "tok" (HsOutcome.line "NOTICE * :Login failed\r\n")).dispatched
          = ["NOTICE * :Login failed\r\n"]
      ∧ (authenticate "me" "tok" (HsOutcome.line "NOTICE * :Login failed\r\n")).result
          = Except.error ("Unexpected server response: " ++ "NOTICE * :Login failed\r\n") :=
  ⟨by decide,
    (c7_non_welcome_first_line "me" "tok" "NOTICE * :Login failed\r\n" (by decide)).1,
    (c7_non_welcome_first_line "me" "tok" "NOTICE * :Login failed\r\n" (by decide)).2.1⟩

/-- C8: when the dial succeeds but the handshake then fails, Connect
returns the handshake error while the connected flag stays true:
Connected reports true with no session running, every further Connect
returns AlreadyConnected without dialing, and only Disconnect clears
the flag. -/
theorem c8_failed_handshake_keeps_flag (s : ClientState) (nick pass : String)
    (io : HsOutcome) (e : String)
    (hs : s.connected = false)
    (he : (authenticate nick pass io).result = Except.error e) :
    (connectHandshake s (Except.ok ()) nick pass io).1 = Except.error e
      ∧ Connected (connectHandshake s (Except.ok ()) nick pass io).2.1 = true
      ∧ (∀ (dial : Except String Unit) (n p : String) (io' : HsOutcome),
          connectHandshake (connectHandshake s (Except.ok ()) nick pass io).2.1
              dial n p io'
            = (Except.error "Already connected",
               (connectHandshake s (Except.ok ()) nick pass io).2.1, false))
      ∧ Connected (Disconnect (connectHandshake s (Except.ok ()) nick pass io).2.1)
          = false := by
  have hcs : connectHandshake s (Except.ok ()) nick pass io
      = (Except.error e, { s with connected := true }, true) := by
    simp [connectHandshake, doConnect, hs, he]
  rw [hcs]
  refine ⟨rfl, rfl, ?_, rfl⟩
  intro dial n p io'
  simp [connectHandshake, doConnect, Connected]

/-- C8 witness: a fresh client whose dial succeeds but whose single
handshake read fails with EOF ends with the error returned and the
connected flag still true, so the next Connect is refused. -/
theorem c8_failed_handshake_keeps_flag_witness :
    NewClient.connected = false
      ∧ (authenticate "me" "tok" (HsOutcome.readErr "EOF")).result
          = Except.error "EOF"
      ∧ (connectHandshake NewClient (Except.ok ()) "me" "tok"
            (HsOutcome.readErr "EOF")).1 = Except.error "EOF"
      ∧ Connected (connectHandshake NewClient (Except.ok ()) "me" "tok"
            (HsOutcome.readErr "EOF")).2.1 = true :=
  ⟨rfl, rfl,
    (c8_failed_handshake_keeps_flag NewClient "me" "tok"
      (HsOutcome.readErr "EOF") "EOF" rfl rfl).1,
    (c8_failed_handshake_keeps_flag NewClient "me" "tok"
      (HsOutcome.readErr "EOF") "EOF" rfl rfl).2.1⟩

/-- C9: Say with the empty channel string panics on the byte access
`channel[0]` regardless of connection state, the '#'-check preceding
the Connected check; Say is total on every nonempty channel; and
Whisper is always safe, passing the fixed nonempty channel `#jtv`. -/
theorem c9_say_empty_channel_panics (st : SendState) (msg : String) :
    Say st "" msg = Except.error ⟨0⟩
      ∧ (∀ (ch m : String), ch ≠ "" → ∃ st', Say st ch m = Except.ok st')
      ∧ (∀ (u m : String), ∃ st', Whisper st u m = Except.ok st') := by
  refine ⟨rfl, ?_, ?_⟩
  · intro ch m hch
    obtain ⟨cs⟩ := ch
    cases cs with
    | nil => exact absurd rfl hch
    | cons c cs' => exact ⟨_, rfl⟩
  · intro u m
    exact ⟨_, rfl⟩

/-- C9 witness: on a disconnected client with an empty queue, Say on
the empty channel panics at index 0 while Say on `foo` returns. -/
theorem c9_say_empty_channel_panics_witness :
    ("foo" : String) ≠ ""
      ∧ Say ⟨false, []⟩ "" "hi" = Except.error ⟨0⟩
      ∧ (∃ st', Say ⟨false, []⟩ "foo" "hi" = Except.ok st')
      ∧ (∃ st', Whisper ⟨false, []⟩ "user" "hi" = Except.ok st') :=
  ⟨by decide, (c9_say_empty_channel_panics ⟨false, []⟩ "hi").1,
    (c9_say_empty_channel_panics ⟨false, []⟩ "hi").2.1 "foo" "hi" (by decide),
    (c9_say_empty_channel_panics ⟨false, []⟩ "hi").2.2 "user" "hi"⟩

/-- C10 counterexample: a PRIVMSG with zero parameters (no bits tag,
no ACTION marker) and one chat listener faults at the access of
`Params[0]` — Go evaluates the call's arguments left to right — so
the out-of-range access the dispatch reaches is not the `Params[1]`
access the claim names. -/
theorem c10_chat_zero_params_counterexample :
    dispatchMessage { nChat := 1 } true [] ⟨"PRIVMSG", [], [], ""⟩
        = Except.error ⟨0⟩
      ∧ (⟨0⟩ : GoPanic) ≠ (⟨1⟩ : GoPanic) :=
  ⟨rfl, by decide⟩

/-- C10 amended: dispatch is not total. With a matching listener, a
PRIVMSG with exactly one parameter, no bits tag and no ACTION marker
faults at `Params[1]` in the chat path, while with zero parameters
the leftmost argument access `Params[0]` faults first; a WHISPER with
fewer than two parameters faults at `Params[1]`; a PING with zero
parameters faults at `Params[0]` regardless of listeners; and the
notice, resub, subscription and subgift paths guard the body index,
substituting the empty string. -/
theorem c10_dispatch_partiality :
    (∀ (p0 : String) (tg : List (String × String)) (nk : String)
        (reg : Registry) (conn : Bool) (q : List String),
        1 ≤ reg.nChat → lookupTag tg "bits" = none →
        dispatchMessage reg conn q ⟨"PRIVMSG", [p0], tg, nk⟩
          = Except.error ⟨1⟩)
      ∧ (∀ (tg : List (String × String)) (nk : String) (reg : Registry)
            (conn : Bool) (q : List String),
          1 ≤ reg.nChat → lookupTag tg "bits" = none →
          dispatchMessage reg conn q ⟨"PRIVMSG", [], tg, nk⟩
            = Except.error ⟨0⟩)
      ∧ (∀ (ps : List String) (tg : List (String × String)) (nk : String)
            (reg : Registry) (conn : Bool) (q : List String),
          ps.length < 2 → 1 ≤ reg.nWhisper →
          dispatchMessage reg conn q ⟨"WHISPER", ps, tg, nk⟩
            = Except.error ⟨1⟩)
      ∧ (∀ (tg : List (String × String)) (nk : String) (reg : Registry)
            (conn : Bool) (q : List String),
          dispatchMessage reg conn q ⟨"PING", [], tg, nk⟩
            = Except.error ⟨0⟩)
      ∧ (∀ (ps : List String) (tg : List (String × String)) (nk : String)
            (reg : Registry) (conn : Bool) (q : List String),
          ps.length < 2 →
          dispatchMessage reg conn q ⟨"NOTICE", ps, tg, nk⟩
            = Except.ok (List.replicate reg.nNotice (Event.notice ""), q))
      ∧ (∀ (p0 : String) (tg : List (String × String)) (nk : String)
            (reg : Registry) (conn : Bool) (q : List String),
          lookupTag tg "msg-id" = some "resub" →
          dispatchMessage reg conn q ⟨"USERNOTICE", [p0], tg, nk⟩
            = Except.ok (List.replicate reg.nResub (Event.resub p0 tg ""), q))
      ∧ (∀ (p0 : String) (tg : List (String × String)) (nk : String)
            (reg : Registry) (conn : Bool) (q : List String),
          lookupTag tg "msg-id" = some "sub" →
          dispatchMessage reg conn q ⟨"USERNOTICE", [p0], tg, nk⟩
            = Except.ok (List.replicate reg.nSub (Event.subscription p0 tg ""), q))
      ∧ (∀ (p0 : String) (tg : List (String × String)) (nk : String)
            (reg : Registry) (conn : Bool) (q : List String),
          lookupTag tg "msg-id" = some "subgift" →
          dispatchMessage reg conn q ⟨"USERNOTICE", [p0], tg, nk⟩
            = Except.ok (List.replicate reg.nSubGift (Event.subGift p0 tg ""), q)) := by
  refine ⟨?_, ?_, ?_, ?_, ?_, ?_, ?_, ?_⟩
  · intro p0 tg nk reg conn q hchat hb
    obtain ⟨a, b, c, d, e, f, g, h, i, j, k, l⟩ := reg
    rcases b with _ | b'
    · exact absurd hchat (Nat.not_succ_le_zero 0)
    · have h1 : dispatchMessage ⟨a, b' + 1, c, d, e, f, g, h, i, j, k, l⟩
          conn q ⟨"PRIVMSG", [p0], tg, nk⟩
          = (if (lookupTag tg "bits").isSome then do
               let evs ← doCheerCallbacks i ⟨"PRIVMSG", [p0], tg, nk⟩
               pure (evs, q)
             else Except.error ⟨1⟩) := rfl
      rw [h1, hb]
      rfl
  · intro tg nk reg conn q hchat hb
    obtain ⟨a, b, c, d, e, f, g, h, i, j, k, l⟩ := reg
    rcases b with _ | b'
    · exact absurd hchat (Nat.not_succ_le_zero 0)
    · have h1 : dispatchMessage ⟨a, b' + 1, c, d, e, f, g, h, i, j, k, l⟩
          conn q ⟨"PRIVMSG", [], tg, nk⟩
          = (if (lookupTag tg "bits").isSome then do
               let evs ← doCheerCallbacks i ⟨"PRIVMSG", [], tg, nk⟩
               pure (evs, q)
             else Except.error ⟨0⟩) := rfl
      rw [h1, hb]
      rfl
  · intro ps tg nk reg conn q hlen hw
    obtain ⟨a, b, c, d, e, f, g, h, i, j, k, l⟩ := reg
    rcases l with _ | l'
    · exact absurd hw (Nat.not_succ_le_zero 0)
    · rcases ps with _ | ⟨x, _ | ⟨y, ys⟩⟩
      · rfl
      · rfl
      · simp at hlen; omega
  · intro tg nk reg conn q
    rfl
  · intro ps tg nk reg conn q hlen
    rcases ps with _ | ⟨x, _ | ⟨y, ys⟩⟩
    · rfl
    · rfl
    · simp at hlen; omega
  · intro p0 tg nk reg conn q hm
    obtain ⟨a, b, c, d, e, f, g, h, i, j, k, l⟩ := reg
    have h1 : dispatchMessage ⟨a, b, c, d, e, f, g, h, i, j, k, l⟩
        conn q ⟨"USERNOTICE", [p0], tg, nk⟩
        = (let msgid :=
             match lookupTag tg "msg-id" with
             | some v => v
             | none => ""
           if msgid = "resub" then do
             let evs ← doResubCallbacks c ⟨"USERNOTICE", [p0], tg, nk⟩
             pure (evs, q)
           else if msgid = "sub" then do
             let evs ← doSubscriptionCallbacks h ⟨"USERNOTICE", [p0], tg, nk⟩
             pure (evs, q)
           else if msgid = "subgift" then do
             let evs ← doSubGiftCallbacks g ⟨"USERNOTICE", [p0], tg, nk⟩
             pure (evs, q)
           else pure ([], q)) := rfl
    rw [h1, hm]
    cases c <;> rfl
  · intro p0 tg nk reg conn q hm
    obtain ⟨a, b, c, d, e, f, g, h, i, j, k, l⟩ := reg
    have h1 : dispatchMessage ⟨a, b, c, d, e, f, g, h, i, j, k, l⟩
        conn q ⟨"USERNOTICE", [p0], tg, nk⟩
        = (let msgid :=
             match lookupTag tg "msg-id" with
             | some v => v
             | none => ""
           if msgid = "resub" then do
             let evs ← doResubCallbacks c ⟨"USERNOTICE", [p0], tg, nk⟩
             pure (evs, q)
           else if msgid = "sub" then do
             let evs ← doSubscriptionCallbacks h ⟨"USERNOTICE", [p0], tg, nk⟩
             pure (evs, q)
           else if msgid = "subgift" then do
             let evs ← doSubGiftCallbacks g ⟨"USERNOTICE", [p0], tg, nk⟩
             pure (evs, q)
           else pure ([], q)) := rfl
    rw [h1, hm]
    cases h <;> rfl
  · intro p0 tg nk reg conn q hm
    obtain ⟨a, b, c, d, e, f, g, h, i, j, k, l⟩ := reg
    have h1 : dispatchMessage ⟨a, b, c, d, e, f, g, h, i, j, k, l⟩
        conn q ⟨"USERNOTICE", [p0], tg, nk⟩
        = (let msgid :=
             match lookupTag tg "msg-id" with
             | some v => v
             | none => ""
           if msgid = "resub" then do
             let evs ← doResubCallbacks c ⟨"USERNOTICE", [p0], tg, nk⟩
             pure (evs, q)
           else if msgid = "sub" then do
             let evs ← doSubscriptionCallbacks h ⟨"USERNOTICE", [p0], tg, nk⟩
             pure (evs, q)
           else if msgid = "subgift" then do
             let evs ← doSubGiftCallbacks g ⟨"USERNOTICE", [p0], tg, nk⟩
             pure (evs, q)
           else pure ([], q)) := rfl
    rw [h1, hm]
    cases g <;> rfl

/-- C10 witness: concrete faulting and guarded dispatches — a
one-parameter PRIVMSG and a one-parameter WHISPER fault at index 1, a
zero-parameter PING faults at index 0, while a one-parameter NOTICE
and a resub USERNOTICE deliver the empty body. -/
theorem c10_dispatch_partiality_witness :
    1 ≤ ({ nChat := 1 } : Registry).nChat
      ∧ lookupTag [] "bits" = none
      ∧ dispatchMessage { nChat := 1 } true [] ⟨"PRIVMSG", ["#c"], [], ""⟩
          = Except.error ⟨1⟩
      ∧ (["u"] : List String).length < 2
      ∧ 1 ≤ ({ nWhisper := 1 } : Registry).nWhisper
      ∧ dispatchMessage { nWhisper := 1 } true [] ⟨"WHISPER", ["u"], [], ""⟩
          = Except.error ⟨1⟩
      ∧ dispatchMessage {} true [] ⟨"PING", [], [], ""⟩ = Except.error ⟨0⟩
      ∧ dispatchMessage { nNotice := 1 } true [] ⟨"NOTICE", ["*"], [], ""⟩
          = Except.ok ([Event.notice ""], [])
      ∧ lookupTag [("msg-id", "resub")] "msg-id" = some "resub"
      ∧ dispatchMessage { nResub := 1 } true []
            ⟨"USERNOTICE", ["#c"], [("msg-id", "resub")], ""⟩
          = Except.ok ([Event.resub "#c" [("msg-id", "resub")] ""], []) :=
  ⟨by decide, by decide,
    c10_dispatch_partiality.1 "#c" [] "" { nChat := 1 } true []
      (by decide) (by decide),
    by decide, by decide,
    c10_dispatch_partiality.2.2.1 ["u"] [] "" { nWhisper := 1 } true []
      (by decide) (by decide),
    c10_dispatch_partiality.2.2.2.1 [] "" {} true [],
    c10_dispatch_partiality.2.2.2.2.1 ["*"] [] "" { nNotice := 1 } true []
      (by decide),
    by decide,
    c10_dispatch_partiality.2.2.2.2.2.1 "#c" [("msg-id", "resub")] ""
      { nResub := 1 } true [] (by decide)⟩
